import Mathlib

/-!
# Attribute binding of the hdf5 package (`h5a_attribute.go`)

A shallow embedding of the attribute operations of the Go binding:
`createAttribute`, `openAttribute`, `GetType`, `Close`, `h5aclose`, `Space`,
`Read` and `Write`.

The Go code sits on two foreign boundaries, both modelled explicitly:

* the C side (libc allocator and the HDF5 library) is an `Env` of oracles
  over an arbitrary library state; every cgo call appends an `Event` holding
  its arguments and its return value to the trace of the `World`;
* package `reflect` is modelled by `Value`, with the documented panics of
  `UnsafeAddr`, `Pointer` and `Elem`;
* the check cgo makes on a pointer argument before it calls into C
  (`cgoCheckPointer`, as run with the default `cgocheck=1` and no pinned
  pointers) is modelled on the pointer words of the Go object pointed to.

Pointer parameters (`*Datatype`, `*Dataspace`, `*PropList`, the receiver)
are taken as the structures they point to.
-/

namespace Hdf5

/-! ## Memory -/

/-- A machine address (`uintptr`, `unsafe.Pointer`). -/
abbrev Addr := Nat

/-- The C type `hid_t`: a resource identifier. -/
abbrev hid_t := Int

/-- The C type `herr_t`: a status code. -/
abbrev herr_t := Int

/-- One byte of memory. -/
inductive Cell
  | byte (b : Nat)
  deriving DecidableEq, Repr

/-- Byte-addressed memory. -/
abbrev Mem := Addr → Cell

/-- Store the cells `cs` at the addresses `a, a+1, ...`. -/
def writeCells (m : Mem) (a : Addr) (cs : List Cell) : Mem :=
  fun x => if a ≤ x then (cs.get? (x - a)).getD (m x) else m x

/-- Load the `n` cells at the addresses `a, ..., a+n-1`. -/
def readCells (m : Mem) (a : Addr) (n : Nat) : List Cell :=
  (List.range n).map (fun i => m (a + i))

/-- The stored representation of the pointer `p` in a slot of `n` bytes: the
bytes of the address, least significant first. -/
def ptrCells (n : Nat) (p : Addr) : List Cell :=
  (List.range n).map (fun i => Cell.byte (p / 256 ^ i % 256))

/-! ## The foreign side -/

/-- A call through cgo, with its arguments and the value it returned. -/
inductive Event
  | malloc (size : Nat) (ret : Addr)
  | free (p : Addr)
  | H5Acreate2 (loc : hid_t) (name : Addr) (type space acpl aapl : hid_t) (ret : hid_t)
  | H5Aopen (loc : hid_t) (name : Addr) (aapl : hid_t) (ret : hid_t)
  | H5Aget_type (attr : hid_t) (ret : hid_t)
  | H5Aget_space (attr : hid_t) (ret : hid_t)
  | H5Aclose (attr : hid_t) (ret : herr_t)
  | H5Aread (attr dtype : hid_t) (buf : Addr) (ret : herr_t)
  | H5Awrite (attr dtype : hid_t) (buf : Addr) (ret : herr_t)
  deriving DecidableEq, Repr

/-- A native HDF5 primitive: it sees memory and the library state, returns a
value and may change both. -/
abbrev Native (σ : Type) (R : Type) := Mem → σ → R × Mem × σ

/-- The collaborators the binding consumes: the C allocator, the address the
Go runtime gives to a local variable whose address is taken, the HDF5
attribute primitives, the size of a pointer, which status codes the library
counts as failures, and which addresses lie in memory managed by Go
(`runtime.cgoIsGoPointer`). -/
structure Env (σ : Type) where
  ptrSize : Nat
  failing : herr_t → Bool
  isGoPointer : Addr → Bool
  malloc : Nat → σ → Addr × σ
  free : Addr → σ → σ
  newvar : σ → Addr × σ
  H5Acreate2 : hid_t → Addr → hid_t → hid_t → hid_t → hid_t → Native σ hid_t
  H5Aopen : hid_t → Addr → hid_t → Native σ hid_t
  H5Aget_type : hid_t → Native σ hid_t
  H5Aget_space : hid_t → Native σ hid_t
  H5Aclose : hid_t → Native σ herr_t
  H5Aread : hid_t → hid_t → Addr → Native σ herr_t
  H5Awrite : hid_t → hid_t → Addr → Native σ herr_t

/-- The state a call runs in: memory, the state of the foreign side, and the
cgo calls made so far. -/
structure World (σ : Type) where
  mem : Mem
  lib : σ
  trace : List Event

variable {σ : Type}

/-- Run a native primitive in a world and log the call. -/
def World.call {R : Type} (w : World σ) (f : Native σ R) (ev : R → Event) : R × World σ :=
  ((f w.mem w.lib).1,
   ⟨(f w.mem w.lib).2.1, (f w.mem w.lib).2.2, w.trace ++ [ev (f w.mem w.lib).1]⟩)

/-- `C.CString(s)`: a malloc-ed copy of the bytes of `s` followed by a NUL. -/
def C.CString (env : Env σ) (s : List Nat) (w : World σ) : Addr × World σ :=
  ((env.malloc (s.length + 1) w.lib).1,
   ⟨writeCells w.mem (env.malloc (s.length + 1) w.lib).1 ((s ++ [0]).map Cell.byte),
    (env.malloc (s.length + 1) w.lib).2,
    w.trace ++ [Event.malloc (s.length + 1) (env.malloc (s.length + 1) w.lib).1]⟩)

/-- `C.free(p)`. -/
def C.free (env : Env σ) (p : Addr) (w : World σ) : World σ :=
  ⟨w.mem, env.free p w.lib, w.trace ++ [Event.free p]⟩

def C.H5Acreate2 (env : Env σ) (loc : hid_t) (name : Addr) (type space acpl aapl : hid_t)
    (w : World σ) : hid_t × World σ :=
  w.call (env.H5Acreate2 loc name type space acpl aapl)
    (Event.H5Acreate2 loc name type space acpl aapl)

def C.H5Aopen (env : Env σ) (loc : hid_t) (name : Addr) (aapl : hid_t)
    (w : World σ) : hid_t × World σ :=
  w.call (env.H5Aopen loc name aapl) (Event.H5Aopen loc name aapl)

def C.H5Aget_type (env : Env σ) (attr : hid_t) (w : World σ) : hid_t × World σ :=
  w.call (env.H5Aget_type attr) (Event.H5Aget_type attr)

def C.H5Aget_space (env : Env σ) (attr : hid_t) (w : World σ) : hid_t × World σ :=
  w.call (env.H5Aget_space attr) (Event.H5Aget_space attr)

def C.H5Aclose (env : Env σ) (attr : hid_t) (w : World σ) : herr_t × World σ :=
  w.call (env.H5Aclose attr) (Event.H5Aclose attr)

def C.H5Aread (env : Env σ) (attr dtype : hid_t) (buf : Addr) (w : World σ) :
    herr_t × World σ :=
  w.call (env.H5Aread attr dtype buf) (Event.H5Aread attr dtype buf)

def C.H5Awrite (env : Env σ) (attr dtype : hid_t) (buf : Addr) (w : World σ) :
    herr_t × World σ :=
  w.call (env.H5Awrite attr dtype buf) (Event.H5Awrite attr dtype buf)

/-! ## Package `reflect` -/

/-- The kinds the two switches tell apart. `Other` stands for every kind of
`reflect.Kind` that is not `Invalid`, `Array`, `String` or `Ptr` (booleans,
the numeric kinds, structs, slices, maps, ...): both switches send all of
them to `default`. -/
inductive Kind
  | Invalid | Array | String | Ptr | Other
  deriving DecidableEq, Repr

/-- A Go value as handed to `Read` and `Write` inside an `interface{}`.

* `array bytes`: a fixed-size array whose elements hold no pointer;
* `string data bytes`: text of the predeclared type `string`, as a string
  header: its data pointer and its bytes;
* `namedString data bytes`: text of a defined string type
  (`type Name string`);
* `nilptr`, `ptr p elem`: a pointer; a non-nil pointer holds the address `p`
  and `elem` is the Go object stored there;
* `other bytes`: a value of any other kind that holds no pointer;
* `withPointers isArray ptrs`: an array (`isArray`) or a value of another
  kind (a struct, a slice, a map, ...) whose pointer words are `ptrs`. -/
inductive GoValue
  | array (bytes : List Nat)
  | string (data : Addr) (bytes : List Nat)
  | nilptr
  | ptr (p : Addr) (elem : GoValue)
  | other (bytes : List Nat)
  | namedString (data : Addr) (bytes : List Nat)
  | withPointers (isArray : Bool) (ptrs : List Addr)
  deriving DecidableEq, Repr

/-- The run-time panics the code can raise: those of package `reflect`, a
failed type assertion, and the pointer check of cgo. -/
inductive Panic
  | valueError
  | unaddressable
  | typeAssertion
  | cgoPointer
  deriving DecidableEq, Repr

/-- The outcome of a Go call: it returns, or it aborts with a panic. -/
inductive Res (α : Type)
  | ok (a : α)
  | panic (p : Panic)
  deriving DecidableEq, Repr

/-- A `reflect.Value`: the value it holds (`none` for the zero Value) and,
when the value is addressable, the address of its storage. -/
structure Value where
  obj : Option GoValue
  addr : Option Addr
  deriving DecidableEq, Repr

/-- `reflect.ValueOf(i)`: the value stored in the interface (`none` is the
nil interface); the result is never addressable. -/
def reflect.ValueOf (i : Option GoValue) : Value := ⟨i, none⟩

/-- `v.Kind()`. -/
def Value.Kind (v : Value) : Hdf5.Kind :=
  match v.obj with
  | none => .Invalid
  | some (.array _) => .Array
  | some (.string _ _) => .String
  | some .nilptr => .Ptr
  | some (.ptr _ _) => .Ptr
  | some (.other _) => .Other
  | some (.namedString _ _) => .String
  | some (.withPointers true _) => .Array
  | some (.withPointers false _) => .Other

/-- `v.UnsafeAddr()`: panics on the zero Value and on a value that is not
addressable. -/
def Value.UnsafeAddr (v : Value) : Res Addr :=
  match v.obj with
  | none => .panic .valueError
  | some _ =>
    match v.addr with
    | none => .panic .unaddressable
    | some a => .ok a

/-- `v.Pointer()` for a value of kind `Ptr`: the pointer it holds. -/
def Value.Pointer (v : Value) : Res Addr :=
  match v.obj with
  | some .nilptr => .ok 0
  | some (.ptr p _) => .ok p
  | _ => .panic .valueError

/-- `v.Elem()` for a value of kind `Ptr`: the addressable value pointed to,
or the zero Value for a nil pointer. -/
def Value.Elem (v : Value) : Value :=
  match v.obj with
  | some (.ptr p e) => ⟨some e, some p⟩
  | _ => ⟨none, none⟩

/-- `reflect.Indirect(v)`. -/
def reflect.Indirect (v : Value) : Value :=
  if v.Kind ≠ .Ptr then v else v.Elem

/-- `v.Interface().(string)`: the assertion holds for a value whose type is
`string` itself and panics for every other type, a defined string type
included. -/
def Value.InterfaceString (v : Value) : Res (List Nat) :=
  match v.obj with
  | some (.string _ bytes) => .ok bytes
  | none => .panic .valueError
  | _ => .panic .typeAssertion

/-- The field `Data` of the `reflect.StringHeader` of a text value. -/
def Value.StringHeaderData (v : Value) : Addr :=
  match v.obj with
  | some (.string data _) => data
  | some (.namedString data _) => data
  | _ => 0

/-! ## The pointer check of cgo -/

/-- The pointer words of a Go object: the pointers stored in the object
itself. -/
def GoValue.pointerWords : GoValue → List Addr
  | .array _ => []
  | .string data _ => [data]
  | .nilptr => []
  | .ptr p _ => [p]
  | .other _ => []
  | .namedString data _ => [data]
  | .withPointers _ ptrs => ptrs

/-- The pointer words of the object a value is, found at `v.UnsafeAddr()`. -/
def Value.words (v : Value) : List Addr :=
  match v.obj with
  | some g => g.pointerWords
  | none => []

/-- The pointer words of the object a pointer value points to, found at
`v.Pointer()`. -/
def Value.pointeeWords (v : Value) : List Addr :=
  match v.obj with
  | some (.ptr _ e) => e.pointerWords
  | _ => []

/-- The check cgo makes on an `unsafe.Pointer` argument before the call into
C: it passes (`true`) unless the argument is a non-nil Go pointer and the Go
object it points to, whose pointer words are `words`, holds a non-nil Go
pointer. A pointer is taken to point to the start of the object it
addresses. -/
def cgoCheckPointer (env : Env σ) (addr : Addr) (words : List Addr) : Bool :=
  !(words.any (fun q => decide (q ≠ 0) && env.isGoPointer q) &&
    decide (addr ≠ 0) && env.isGoPointer addr)

/-! ## Data model -/

/-- The library's error values. -/
inductive Error
  | ResourceCreationError (hid : hid_t)
  | IOError (rc : herr_t)
  deriving DecidableEq, Repr

/-- The handle every resource embeds: one native resource identifier. -/
structure Identifier where
  id : hid_t
  deriving DecidableEq, Repr

/-- The Go type `Attribute`: `struct { Identifier }`. -/
structure Attribute extends Identifier
  deriving DecidableEq, Repr

/-- Modelled from the spec: the type `Datatype` is declared outside this file;
the code only reads its resource identifier (`dType.id`). -/
structure Datatype extends Identifier
  deriving DecidableEq, Repr

/-- Modelled from the spec: the type `Dataspace` is declared outside this
file; like an Attribute it is a handle around one resource identifier. -/
structure Dataspace extends Identifier
  deriving DecidableEq, Repr

/-- Modelled from the spec: the type `PropList` is declared outside this file;
the code only reads its resource identifier (`acpl.id`, `P_DEFAULT.id`). -/
structure PropList extends Identifier
  deriving DecidableEq, Repr

/-- Modelled from the spec: the constructor of `Dataspace` is declared outside
this file; as `newAttribute` does for an Attribute, it wraps the identifier it
is given. -/
def newDataspace (id : hid_t) : Dataspace := ⟨⟨id⟩⟩

/-- Modelled from the spec: `checkId` is declared outside this file. A native
call that returns an invalid resource identifier fails with
`ResourceCreationError`, and by convention any non-positive value signals
failure. -/
def checkId (hid : hid_t) : Option Error :=
  if hid ≤ 0 then some (Error.ResourceCreationError hid) else none

/-- Modelled from the spec: `h5err`, the status-code-to-error translator shared
across the library, is declared outside this file. It converts a failing
status code into an `IOError`; which codes are failing is the native
library's convention (`env.failing`). -/
def h5err (env : Env σ) (rc : herr_t) : Option Error :=
  if env.failing rc then some (Error.IOError rc) else none

/-! ## The attribute operations -/

def newAttribute (id : hid_t) : Attribute := ⟨⟨id⟩⟩

/-- The Go function `createAttribute`; `P_DEFAULT` is the package-level
default property list. The result is the pair `(*Attribute, error)`. -/
def createAttribute (env : Env σ) (P_DEFAULT : PropList) (id : hid_t) (name : List Nat)
    (dType : Datatype) (dSpace : Dataspace) (acpl : PropList) (w : World σ) :
    (Option Attribute × Option Error) × World σ :=
  let cName := C.CString env name w
  let hid := C.H5Acreate2 env id cName.1 dType.id dSpace.id acpl.id P_DEFAULT.id cName.2
  match checkId hid.1 with
  | some err => ((none, some err), C.free env cName.1 hid.2)
  | none => ((some (newAttribute hid.1), none), C.free env cName.1 hid.2)

/-- The Go function `openAttribute`. -/
def openAttribute (env : Env σ) (P_DEFAULT : PropList) (id : hid_t) (name : List Nat)
    (w : World σ) : (Option Attribute × Option Error) × World σ :=
  let cName := C.CString env name w
  let hid := C.H5Aopen env id cName.1 P_DEFAULT.id cName.2
  match checkId hid.1 with
  | some err => ((none, some err), C.free env cName.1 hid.2)
  | none => ((some (newAttribute hid.1), none), C.free env cName.1 hid.2)

/-- The method `GetType`. -/
def Attribute.GetType (env : Env σ) (s : Attribute) (w : World σ) : Identifier × World σ :=
  let ftype := C.H5Aget_type env s.id w
  (⟨ftype.1⟩, ftype.2)

/-- The Go function `h5aclose`. -/
def h5aclose (env : Env σ) (id : hid_t) (w : World σ) : herr_t × World σ :=
  C.H5Aclose env id w

/-- The type of the generic handle-release routine `closeWith`, a method of
`Identifier` declared outside this file: it is given a destructor and the
handle, and returns an error value and the handle as it leaves it. -/
abbrev CloseWith (σ : Type) :=
  (hid_t → World σ → herr_t × World σ) → Identifier → World σ →
    (Option Error × Identifier) × World σ

/-- The method `Close`; the result carries the receiver as the call leaves it. -/
def Attribute.Close (env : Env σ) (closeWith : CloseWith σ) (s : Attribute) (w : World σ) :
    (Option Error × Attribute) × World σ :=
  let r := closeWith (h5aclose env) s.toIdentifier w
  ((r.1.1, ⟨r.1.2⟩), r.2)

/-- The method `Space`; the result carries the receiver as the call leaves it. -/
def Attribute.Space (env : Env σ) (s : Attribute) (w : World σ) :
    (Option Dataspace × Attribute) × World σ :=
  let hid := C.H5Aget_space env s.id w
  if hid.1 > 0 then ((some (newDataspace hid.1), s), hid.2)
  else ((none, s), hid.2)

/-- What a switch over the kind of the value leaves behind: the address to
hand to the native primitive, the scratch buffers whose release is deferred,
the world, and the pointer words of the Go object at that address (what the
Go runtime finds there when cgo checks the argument). -/
structure Prep (σ : Type) where
  addr : Addr
  deferred : List Addr
  world : World σ
  words : List Addr

/-- Run the deferred `C.free` calls, last registered first. -/
def runDeferred (env : Env σ) (ps : List Addr) (w : World σ) : World σ :=
  ps.foldr (fun p acc => C.free env p acc) w

/-- Lift an address computation of package `reflect` to a `Prep`; `words`
are the pointer words of the Go object at the address. -/
def Prep.ofAddr (a : Res Addr) (words : List Addr) (w : World σ) : Res (Prep σ) :=
  match a with
  | .ok x => .ok ⟨x, [], w, words⟩
  | .panic p => .panic p

/-- The switch of `Read`. The character storage of a text holds no
pointer. -/
def Attribute.Read.switch (data : Option GoValue) (w : World σ) : Res (Prep σ) :=
  let v := reflect.ValueOf data
  match v.Kind with
  | .Array => Prep.ofAddr v.UnsafeAddr v.words w
  | .String =>
    match v.UnsafeAddr with
    | .ok _ => .ok ⟨v.StringHeaderData, [], w, []⟩
    | .panic p => .panic p
  | .Ptr => Prep.ofAddr v.Pointer v.pointeeWords w
  | _ => Prep.ofAddr v.UnsafeAddr v.words w

/-- The method `Read`. The call `C.H5Aread(s.id, dType.id, addr)` first has
cgo check the pointer argument, and aborts when the check fails. -/
def Attribute.Read (env : Env σ) (s : Attribute) (data : Option GoValue) (dType : Datatype)
    (w : World σ) : Res (Option Error) × World σ :=
  match Attribute.Read.switch data w with
  | .panic p => (.panic p, w)
  | .ok pr =>
    match cgoCheckPointer env pr.addr pr.words with
    | false => (.panic .cgoPointer, runDeferred env pr.deferred pr.world)
    | true =>
      let rc := C.H5Aread env s.id dType.id pr.addr pr.world
      let err := h5err env rc.1
      (.ok err, runDeferred env pr.deferred rc.2)

/-- The text case of the switch of `Write`: the scratch copy `str`, its
deferred release, and the address of the variable `str` itself. That
variable holds one pointer, into the C heap, which is not a Go pointer: the
object at the address has no pointer word for cgo to reject. -/
def Attribute.Write.text (env : Env σ) (text : List Nat) (w : World σ) : Prep σ :=
  let str := C.CString env text w
  let slot := env.newvar str.2.lib
  ⟨slot.1, [str.1],
   ⟨writeCells str.2.mem slot.1 (ptrCells env.ptrSize str.1), slot.2, str.2.trace⟩, []⟩

/-- The switch of `Write`. -/
def Attribute.Write.switch (env : Env σ) (data : Option GoValue) (w : World σ) :
    Res (Prep σ) :=
  let v := reflect.Indirect (reflect.ValueOf data)
  match v.Kind with
  | .Array => Prep.ofAddr v.UnsafeAddr v.words w
  | .String =>
    match v.InterfaceString with
    | .ok text => .ok (Attribute.Write.text env text w)
    | .panic p => .panic p
  | .Ptr => Prep.ofAddr v.Pointer v.pointeeWords w
  | _ => Prep.ofAddr v.UnsafeAddr v.words w

/-- The method `Write`. The call `C.H5Awrite(s.id, dType.id, addr)` first has
cgo check the pointer argument, and aborts when the check fails; the
deferred release runs on every way out. -/
def Attribute.Write (env : Env σ) (s : Attribute) (data : Option GoValue) (dType : Datatype)
    (w : World σ) : Res (Option Error) × World σ :=
  match Attribute.Write.switch env data w with
  | .panic p => (.panic p, w)
  | .ok pr =>
    match cgoCheckPointer env pr.addr pr.words with
    | false => (.panic .cgoPointer, runDeferred env pr.deferred pr.world)
    | true =>
      let rc := C.H5Awrite env s.id dType.id pr.addr pr.world
      let err := h5err env rc.1
      (.ok err, runDeferred env pr.deferred rc.2)

/-! ## A mock native layer -/

/-- The state of the mock native layer: the identifiers handed out so far,
the next free address of its heap, the size in bytes of each datatype, and
the bytes stored in each attribute. -/
structure Mock where
  next : Nat
  brk : Addr
  size : hid_t → Nat
  stored : hid_t → List Cell

/-- The mock native layer. A write stores in the attribute the datatype-sized
bytes found at the given address, a read copies the stored bytes to the
given address, and both succeed with status 0. Addresses come from a bump
allocator; a negative status is a failure; the memory managed by Go is the
addresses below 1000. -/
def mockEnv : Env Mock where
  ptrSize := 8
  failing := fun rc => decide (rc < 0)
  isGoPointer := fun a => decide (a < 1000)
  malloc := fun n st => (st.brk, { st with brk := st.brk + n })
  free := fun _ st => st
  newvar := fun st => (st.brk, { st with brk := st.brk + 8 })
  H5Acreate2 := fun _ _ _ _ _ _ m st => ((st.next + 1 : Nat), m, { st with next := st.next + 1 })
  H5Aopen := fun _ _ _ m st => ((st.next + 1 : Nat), m, { st with next := st.next + 1 })
  H5Aget_type := fun _ m st => ((st.next + 1 : Nat), m, { st with next := st.next + 1 })
  H5Aget_space := fun _ m st => ((st.next + 1 : Nat), m, { st with next := st.next + 1 })
  H5Aclose := fun _ m st => (0, m, st)
  H5Aread := fun attr _ buf m st => (0, writeCells m buf (st.stored attr), st)
  H5Awrite := fun attr dtype buf m st =>
    (0, m, { st with
      stored := fun a => if a = attr then readCells m buf (st.size dtype) else st.stored a })

/-! ## Concrete inputs -/

/-- The bytes of the text "hello". -/
def hello : List Nat := [104, 101, 108, 108, 111]

/-- A world of the mock layer: zeroed memory, every datatype 8 bytes wide,
nothing stored, the heap starting at address 1000. -/
def emptyWorld : World Mock :=
  ⟨fun _ => Cell.byte 0, ⟨0, 1000, fun _ => 8, fun _ => []⟩, []⟩

/-- A world of the mock layer holding the text "hello" at address 100, the
header of that text at address 200, a zeroed text buffer at address 300 and
the header of that buffer at address 400. -/
def textWorld : World Mock :=
  ⟨writeCells (writeCells (writeCells (fun _ => Cell.byte 0) 100 (hello.map Cell.byte))
      200 (ptrCells 8 100)) 400 (ptrCells 8 300),
   ⟨0, 1000, fun _ => 8, fun _ => []⟩, []⟩

/-- A world of the mock layer holding the 4-byte scalar `[4, 3, 2, 1]` at
address 100, with datatype 2 being 4 bytes wide. -/
def scalarWorld : World Mock :=
  ⟨writeCells (fun _ => Cell.byte 0) 100 ([4, 3, 2, 1].map Cell.byte),
   ⟨0, 1000, fun _ => 4, fun _ => []⟩, []⟩

/-! ## Memory lemmas -/

theorem readCells_length (m : Mem) (a n : Nat) : (readCells m a n).length = n := by
  simp [readCells]

theorem readCells_writeCells (m : Mem) (a : Addr) (cs : List Cell) :
    readCells (writeCells m a cs) a cs.length = cs := by
  apply List.ext_getElem
  · simp [readCells]
  · intro i h1 h2
    simp [readCells, writeCells, List.getElem?_eq_getElem h2]

theorem ptrCells_length (n : Nat) (p : Addr) : (ptrCells n p).length = n := by
  simp [ptrCells]

theorem readCells_writeCells_disjoint (m : Mem) (a b : Nat) (cs : List Cell) (n : Nat)
    (h : a + cs.length ≤ b ∨ b + n ≤ a) :
    readCells (writeCells m a cs) b n = readCells m b n := by
  apply List.ext_getElem
  · simp [readCells]
  · intro i h1 h2
    have hi : i < n := by simpa [readCells] using h1
    simp only [readCells, List.getElem_map, List.getElem_range, writeCells]
    clear h1 h2
    split_ifs with hle
    · rcases h with h | h
      · have : cs.get? (b + i - a) = none := by
          rw [List.get?_eq_none]
          omega
        rw [this]
        rfl
      · have hle2 : (a : Nat) ≤ (b : Nat) + i := hle
        omega
    · rfl

/-! ## The pointer check -/

theorem cgoCheckPointer_eq_false_iff (env : Env σ) (addr : Addr) (words : List Addr) :
    cgoCheckPointer env addr words = false ↔
      (addr ≠ 0 ∧ env.isGoPointer addr = true ∧
        ∃ q, q ∈ words ∧ q ≠ 0 ∧ env.isGoPointer q = true) := by
  simp only [cgoCheckPointer, Bool.not_eq_false', Bool.and_eq_true, List.any_eq_true,
    decide_eq_true_eq]
  constructor
  · rintro ⟨⟨⟨q, hq, hq0, hqg⟩, ha⟩, hg⟩
    exact ⟨ha, hg, q, hq, hq0, hqg⟩
  · rintro ⟨ha, hg, q, hq, hq0, hqg⟩
    exact ⟨⟨⟨q, hq, hq0, hqg⟩, ha⟩, hg⟩

theorem cgoCheckPointer_nil_words (env : Env σ) (addr : Addr) :
    cgoCheckPointer env addr [] = true := rfl

/-! ## Symbolic execution of `Read` and `Write` -/

theorem Read_of_switch_ok (env : Env σ) (s : Attribute) (data : Option GoValue)
    (dType : Datatype) (w : World σ) (pr : Prep σ)
    (h : Attribute.Read.switch data w = .ok pr)
    (hc : cgoCheckPointer env pr.addr pr.words = true) :
    Attribute.Read env s data dType w =
      (.ok (h5err env (C.H5Aread env s.id dType.id pr.addr pr.world).1),
       runDeferred env pr.deferred (C.H5Aread env s.id dType.id pr.addr pr.world).2) := by
  simp [Attribute.Read, h, hc]

theorem Write_of_switch_ok (env : Env σ) (s : Attribute) (data : Option GoValue)
    (dType : Datatype) (w : World σ) (pr : Prep σ)
    (h : Attribute.Write.switch env data w = .ok pr)
    (hc : cgoCheckPointer env pr.addr pr.words = true) :
    Attribute.Write env s data dType w =
      (.ok (h5err env (C.H5Awrite env s.id dType.id pr.addr pr.world).1),
       runDeferred env pr.deferred (C.H5Awrite env s.id dType.id pr.addr pr.world).2) := by
  simp [Attribute.Write, h, hc]

theorem Read_of_switch_panic (env : Env σ) (s : Attribute) (data : Option GoValue)
    (dType : Datatype) (w : World σ) (p : Panic)
    (h : Attribute.Read.switch data w = .panic p) :
    Attribute.Read env s data dType w = (.panic p, w) := by
  simp [Attribute.Read, h]

theorem Write_of_switch_panic (env : Env σ) (s : Attribute) (data : Option GoValue)
    (dType : Datatype) (w : World σ) (p : Panic)
    (h : Attribute.Write.switch env data w = .panic p) :
    Attribute.Write env s data dType w = (.panic p, w) := by
  simp [Attribute.Write, h]

theorem h5err_isSome_iff (env : Env σ) (rc : herr_t) :
    (h5err env rc).isSome = true ↔ env.failing rc = true := by
  unfold h5err
  split_ifs with h <;> simp [h]

/-! ## Resource lifecycle -/

theorem createAttribute_eq (env : Env σ) (P_DEFAULT : PropList) (id : hid_t)
    (name : List Nat) (dType : Datatype) (dSpace : Dataspace) (acpl : PropList)
    (w : World σ) :
    createAttribute env P_DEFAULT id name dType dSpace acpl w =
      ((if (C.H5Acreate2 env id (C.CString env name w).1 dType.id dSpace.id acpl.id
              P_DEFAULT.id (C.CString env name w).2).1 ≤ 0
        then (none, some (Error.ResourceCreationError
          (C.H5Acreate2 env id (C.CString env name w).1 dType.id dSpace.id acpl.id
              P_DEFAULT.id (C.CString env name w).2).1))
        else (some ⟨⟨(C.H5Acreate2 env id (C.CString env name w).1 dType.id dSpace.id acpl.id
              P_DEFAULT.id (C.CString env name w).2).1⟩⟩, none)),
       C.free env (C.CString env name w).1
        (C.H5Acreate2 env id (C.CString env name w).1 dType.id dSpace.id acpl.id
              P_DEFAULT.id (C.CString env name w).2).2) := by
  simp only [createAttribute, checkId, newAttribute]
  split_ifs <;> rfl

theorem openAttribute_eq (env : Env σ) (P_DEFAULT : PropList) (id : hid_t)
    (name : List Nat) (w : World σ) :
    openAttribute env P_DEFAULT id name w =
      ((if (C.H5Aopen env id (C.CString env name w).1 P_DEFAULT.id (C.CString env name w).2).1 ≤ 0
        then (none, some (Error.ResourceCreationError
          (C.H5Aopen env id (C.CString env name w).1 P_DEFAULT.id (C.CString env name w).2).1))
        else (some ⟨⟨(C.H5Aopen env id (C.CString env name w).1 P_DEFAULT.id
          (C.CString env name w).2).1⟩⟩, none)),
       C.free env (C.CString env name w).1
        (C.H5Aopen env id (C.CString env name w).1 P_DEFAULT.id (C.CString env name w).2).2) := by
  simp only [openAttribute, checkId, newAttribute]
  split_ifs <;> rfl

theorem Space_eq (env : Env σ) (s : Attribute) (w : World σ) :
    Attribute.Space env s w =
      ((if (C.H5Aget_space env s.id w).1 ≤ 0 then none
        else some ⟨⟨(C.H5Aget_space env s.id w).1⟩⟩, s), (C.H5Aget_space env s.id w).2) := by
  simp only [Attribute.Space, newDataspace, gt_iff_lt]
  by_cases h : (C.H5Aget_space env s.id w).1 ≤ 0
  · rw [if_neg (not_lt.mpr h), if_pos h]
  · rw [if_pos (not_le.mp h), if_neg h]

/-- C1: for every parent id, name, datatype, dataspace and property list: let
`cName` be the address the allocator returns for the copy of the name, and
`hid` the identifier the native create call `env.H5Acreate2` (resp. the
native open call `env.H5Aopen`) returns when it is handed that copy. Then
`createAttribute` (resp. `openAttribute`) returns an error and no Attribute
exactly when `hid ≤ 0`, and otherwise no error and the Attribute whose handle
id is `hid`; it leaves the memory the native call left, the foreign state
after the release of the copy, and the three calls in the trace. -/
theorem createAttribute_openAttribute_error_iff_nonpositive (env : Env σ)
    (P_DEFAULT : PropList) (id : hid_t) (name : List Nat) (dType : Datatype)
    (dSpace : Dataspace) (acpl : PropList) (w : World σ)
    (cName : Addr) (lib1 : σ) (hid : hid_t) (mem2 : Mem) (lib2 : σ)
    (hid' : hid_t) (mem2' : Mem) (lib2' : σ)
    (hmalloc : env.malloc (name.length + 1) w.lib = (cName, lib1))
    (hcreate : env.H5Acreate2 id cName dType.id dSpace.id acpl.id P_DEFAULT.id
      (writeCells w.mem cName ((name ++ [0]).map Cell.byte)) lib1 = (hid, mem2, lib2))
    (hopen : env.H5Aopen id cName P_DEFAULT.id
      (writeCells w.mem cName ((name ++ [0]).map Cell.byte)) lib1 = (hid', mem2', lib2')) :
    (createAttribute env P_DEFAULT id name dType dSpace acpl w =
        ((if hid ≤ 0 then (none, some (Error.ResourceCreationError hid))
          else (some ⟨⟨hid⟩⟩, none)),
         ⟨mem2, env.free cName lib2,
          w.trace ++ [Event.malloc (name.length + 1) cName,
            Event.H5Acreate2 id cName dType.id dSpace.id acpl.id P_DEFAULT.id hid,
            Event.free cName]⟩) ∧
      (((createAttribute env P_DEFAULT id name dType dSpace acpl w).1.2.isSome = true ∧
          (createAttribute env P_DEFAULT id name dType dSpace acpl w).1.1 = none) ↔ hid ≤ 0)) ∧
    (openAttribute env P_DEFAULT id name w =
        ((if hid' ≤ 0 then (none, some (Error.ResourceCreationError hid'))
          else (some ⟨⟨hid'⟩⟩, none)),
         ⟨mem2', env.free cName lib2',
          w.trace ++ [Event.malloc (name.length + 1) cName,
            Event.H5Aopen id cName P_DEFAULT.id hid', Event.free cName]⟩) ∧
      (((openAttribute env P_DEFAULT id name w).1.2.isSome = true ∧
          (openAttribute env P_DEFAULT id name w).1.1 = none) ↔ hid' ≤ 0)) := by
  have hc : createAttribute env P_DEFAULT id name dType dSpace acpl w =
        ((if hid ≤ 0 then (none, some (Error.ResourceCreationError hid))
          else (some ⟨⟨hid⟩⟩, none)),
         ⟨mem2, env.free cName lib2,
          w.trace ++ [Event.malloc (name.length + 1) cName,
            Event.H5Acreate2 id cName dType.id dSpace.id acpl.id P_DEFAULT.id hid,
            Event.free cName]⟩) := by
    rw [createAttribute_eq]
    simp only [C.free, C.H5Acreate2, C.CString, World.call, hmalloc, hcreate,
      List.append_assoc, List.singleton_append]
    rfl
  have ho : openAttribute env P_DEFAULT id name w =
        ((if hid' ≤ 0 then (none, some (Error.ResourceCreationError hid'))
          else (some ⟨⟨hid'⟩⟩, none)),
         ⟨mem2', env.free cName lib2',
          w.trace ++ [Event.malloc (name.length + 1) cName,
            Event.H5Aopen id cName P_DEFAULT.id hid', Event.free cName]⟩) := by
    rw [openAttribute_eq]
    simp only [C.free, C.H5Aopen, C.CString, World.call, hmalloc, hopen,
      List.append_assoc, List.singleton_append]
    rfl
  refine ⟨⟨hc, ?_⟩, ⟨ho, ?_⟩⟩
  · rw [hc]
    split_ifs with h <;> simp [h]
  · rw [ho]
    split_ifs with h <;> simp [h]

set_option maxRecDepth 8000 in
/-- C1, at a concrete input: over the mock layer, whose create and open calls
return the identifier 1, both calls return the Attribute with id 1. -/
theorem createAttribute_openAttribute_error_iff_nonpositive_witness :
    (mockEnv.malloc (hello.length + 1) emptyWorld.lib =
        (1000, ⟨0, 1006, fun _ => 8, fun _ => []⟩) ∧
      mockEnv.H5Acreate2 5 1000 2 3 0 0
          (writeCells emptyWorld.mem 1000 ((hello ++ [0]).map Cell.byte))
          ⟨0, 1006, fun _ => 8, fun _ => []⟩ =
        (1, writeCells emptyWorld.mem 1000 ((hello ++ [0]).map Cell.byte),
          ⟨1, 1006, fun _ => 8, fun _ => []⟩) ∧
      mockEnv.H5Aopen 5 1000 0
          (writeCells emptyWorld.mem 1000 ((hello ++ [0]).map Cell.byte))
          ⟨0, 1006, fun _ => 8, fun _ => []⟩ =
        (1, writeCells emptyWorld.mem 1000 ((hello ++ [0]).map Cell.byte),
          ⟨1, 1006, fun _ => 8, fun _ => []⟩)) ∧
    ((createAttribute mockEnv ⟨⟨0⟩⟩ 5 hello ⟨⟨2⟩⟩ ⟨⟨3⟩⟩ ⟨⟨0⟩⟩ emptyWorld =
        ((if (1 : hid_t) ≤ 0 then (none, some (Error.ResourceCreationError 1))
          else (some ⟨⟨1⟩⟩, none)),
         ⟨writeCells emptyWorld.mem 1000 ((hello ++ [0]).map Cell.byte),
          mockEnv.free 1000 ⟨1, 1006, fun _ => 8, fun _ => []⟩,
          emptyWorld.trace ++ [Event.malloc (hello.length + 1) 1000,
            Event.H5Acreate2 5 1000 2 3 0 0 1, Event.free 1000]⟩) ∧
      (((createAttribute mockEnv ⟨⟨0⟩⟩ 5 hello ⟨⟨2⟩⟩ ⟨⟨3⟩⟩ ⟨⟨0⟩⟩ emptyWorld).1.2.isSome = true ∧
          (createAttribute mockEnv ⟨⟨0⟩⟩ 5 hello ⟨⟨2⟩⟩ ⟨⟨3⟩⟩ ⟨⟨0⟩⟩ emptyWorld).1.1 = none) ↔
        (1 : hid_t) ≤ 0)) ∧
    (openAttribute mockEnv ⟨⟨0⟩⟩ 5 hello emptyWorld =
        ((if (1 : hid_t) ≤ 0 then (none, some (Error.ResourceCreationError 1))
          else (some ⟨⟨1⟩⟩, none)),
         ⟨writeCells emptyWorld.mem 1000 ((hello ++ [0]).map Cell.byte),
          mockEnv.free 1000 ⟨1, 1006, fun _ => 8, fun _ => []⟩,
          emptyWorld.trace ++ [Event.malloc (hello.length + 1) 1000,
            Event.H5Aopen 5 1000 0 1, Event.free 1000]⟩) ∧
      (((openAttribute mockEnv ⟨⟨0⟩⟩ 5 hello emptyWorld).1.2.isSome = true ∧
          (openAttribute mockEnv ⟨⟨0⟩⟩ 5 hello emptyWorld).1.1 = none) ↔ (1 : hid_t) ≤ 0))) :=
  ⟨⟨by rfl, by rfl, by rfl⟩,
   createAttribute_openAttribute_error_iff_nonpositive mockEnv ⟨⟨0⟩⟩ 5 hello ⟨⟨2⟩⟩ ⟨⟨3⟩⟩ ⟨⟨0⟩⟩
     emptyWorld 1000 ⟨0, 1006, fun _ => 8, fun _ => []⟩ 1
     (writeCells emptyWorld.mem 1000 ((hello ++ [0]).map Cell.byte))
     ⟨1, 1006, fun _ => 8, fun _ => []⟩ 1
     (writeCells emptyWorld.mem 1000 ((hello ++ [0]).map Cell.byte))
     ⟨1, 1006, fun _ => 8, fun _ => []⟩ (by rfl) (by rfl) (by rfl)⟩

/-- C2: for every Attribute, with `hid` the identifier the native
get-dataspace call `env.H5Aget_space` returns on its id: `Space` returns
nothing exactly when `hid ≤ 0`, otherwise a Dataspace whose id is `hid`; the
Attribute is left as it was, and the call leaves the memory and the state
the native call left and one more call in the trace. -/
theorem Space_nil_iff_nonpositive (env : Env σ) (s : Attribute) (w : World σ) :
    Attribute.Space env s w =
      ((if (env.H5Aget_space s.id w.mem w.lib).1 ≤ 0 then none
        else some ⟨⟨(env.H5Aget_space s.id w.mem w.lib).1⟩⟩, s),
       ⟨(env.H5Aget_space s.id w.mem w.lib).2.1, (env.H5Aget_space s.id w.mem w.lib).2.2,
        w.trace ++ [Event.H5Aget_space s.id (env.H5Aget_space s.id w.mem w.lib).1]⟩) ∧
    ((Attribute.Space env s w).1.1 = none ↔ (env.H5Aget_space s.id w.mem w.lib).1 ≤ 0) ∧
    (Attribute.Space env s w).1.2 = s := by
  have h : Attribute.Space env s w =
      ((if (env.H5Aget_space s.id w.mem w.lib).1 ≤ 0 then none
        else some ⟨⟨(env.H5Aget_space s.id w.mem w.lib).1⟩⟩, s),
       ⟨(env.H5Aget_space s.id w.mem w.lib).2.1, (env.H5Aget_space s.id w.mem w.lib).2.2,
        w.trace ++ [Event.H5Aget_space s.id (env.H5Aget_space s.id w.mem w.lib).1]⟩) := by
    rw [Space_eq]
    rfl
  refine ⟨h, ?_, ?_⟩
  · rw [h]
    split_ifs with h0 <;> simp [h0]
  · rw [h]

/-- C10: `Close` hands the generic release routine the attribute destructor
`h5aclose` and nothing else; `h5aclose` applied to any id makes exactly one
native call, `H5Aclose` on that id, and returns its status code unchanged. -/
theorem Close_routes_to_h5aclose (env : Env σ) (closeWith : CloseWith σ) (s : Attribute)
    (id : hid_t) (w : World σ) :
    ((Attribute.Close env closeWith s w).1.1 = (closeWith (h5aclose env) s.toIdentifier w).1.1 ∧
      (Attribute.Close env closeWith s w).1.2.toIdentifier =
        (closeWith (h5aclose env) s.toIdentifier w).1.2 ∧
      (Attribute.Close env closeWith s w).2 = (closeWith (h5aclose env) s.toIdentifier w).2) ∧
    (h5aclose env id w).1 = (env.H5Aclose id w.mem w.lib).1 ∧
    (h5aclose env id w).2.trace = w.trace ++ [Event.H5Aclose id (env.H5Aclose id w.mem w.lib).1] ∧
    (h5aclose env id w).2.mem = (env.H5Aclose id w.mem w.lib).2.1 ∧
    (h5aclose env id w).2.lib = (env.H5Aclose id w.mem w.lib).2.2 := by
  simp [Attribute.Close, h5aclose, C.H5Aclose, World.call]

/-! ## Marshalling: values handed over directly -/

/-- C4: `Read` of a value handed over directly, an array or a plain scalar,
aborts in `UnsafeAddr` (the value is not addressable) and leaves the world
as it was: the native read primitive is not called and no address is
passed. -/
theorem Read_direct_array_or_scalar_aborts (env : Env σ) (s : Attribute) (bytes : List Nat)
    (dType : Datatype) (w : World σ) :
    Attribute.Read env s (some (.array bytes)) dType w = (.panic .unaddressable, w) ∧
    Attribute.Read env s (some (.other bytes)) dType w = (.panic .unaddressable, w) :=
  ⟨rfl, rfl⟩

/-- C3: on the scalar `int32(7)` handed over directly `Read` and `Write` both
abort, and on the array `[2]int32{1, 2}` handed over directly `Write`
aborts; in each case the trace is unchanged, so the native primitive is
skipped. -/
theorem Read_Write_direct_value_skips_native (env : Env σ) (s : Attribute)
    (dType : Datatype) (w : World σ) :
    (Attribute.Read env s (some (.other [7, 0, 0, 0])) dType w).1 = .panic .unaddressable ∧
    (Attribute.Read env s (some (.other [7, 0, 0, 0])) dType w).2.trace = w.trace ∧
    (Attribute.Write env s (some (.other [7, 0, 0, 0])) dType w).1 = .panic .unaddressable ∧
    (Attribute.Write env s (some (.other [7, 0, 0, 0])) dType w).2.trace = w.trace ∧
    (Attribute.Write env s (some (.array [1, 0, 0, 0, 2, 0, 0, 0])) dType w).1 =
      .panic .unaddressable ∧
    (Attribute.Write env s (some (.array [1, 0, 0, 0, 2, 0, 0, 0])) dType w).2.trace =
      w.trace :=
  ⟨rfl, rfl, rfl, rfl, rfl, rfl⟩

/-- C5: `Read` of a text destination aborts in `UnsafeAddr` before the data
pointer of the string header is read, and the native read primitive is not
called; `Write` of the same text does reach the native write primitive, with
the address of the variable holding the scratch copy. -/
theorem Read_text_aborts (env : Env σ) (s : Attribute) (data : Addr) (text : List Nat)
    (dType : Datatype) (w : World σ) :
    Attribute.Read env s (some (.string data text)) dType w = (.panic .unaddressable, w) ∧
    (Attribute.Write env s (some (.string data text)) dType w).2.trace =
      w.trace ++ [Event.malloc (text.length + 1) (C.CString env text w).1,
        Event.H5Awrite s.id dType.id (Attribute.Write.text env text w).addr
          (C.H5Awrite env s.id dType.id (Attribute.Write.text env text w).addr
            (Attribute.Write.text env text w).world).1,
        Event.free (C.CString env text w).1] := by
  refine ⟨rfl, ?_⟩
  simp [Attribute.Write, Attribute.Write.switch, reflect.Indirect, reflect.ValueOf, Value.Kind,
    Value.InterfaceString, runDeferred, C.free, C.H5Awrite, World.call, Attribute.Write.text,
    C.CString, cgoCheckPointer_nil_words]

/-! ## Marshalling: pointers -/

/-- C6, the counterexample: handed a pointer (address 100) to a pointer
(address 200) to a scalar, `Write` passes the native primitive the address
200, two levels down, and not the address 100 the supplied pointer holds. -/
theorem Write_pointer_to_pointer_counterexample :
    (Attribute.Write mockEnv ⟨⟨1⟩⟩ (some (.ptr 100 (.ptr 200 (.other [7, 0, 0, 0])))) ⟨⟨2⟩⟩
      emptyWorld).2.trace = [Event.H5Awrite 1 2 200 0] ∧
    (Attribute.Write mockEnv ⟨⟨1⟩⟩ (some (.ptr 100 (.ptr 200 (.other [7, 0, 0, 0])))) ⟨⟨2⟩⟩
      emptyWorld).2.trace ≠ [Event.H5Awrite 1 2 100 0] := by
  constructor
  · rfl
  · decide

/-- C6, as amended: a call handed a pointer reaches the native primitive
unless the pointer check of cgo fails, that is unless the address to hand
over is a non-nil Go pointer to a Go object that itself holds a non-nil Go
pointer; in that case the call aborts with no native call. When it reaches
the native primitive it makes exactly one native call and returns the
translation of its status, and the address handed over is: for `Read`, the
address the pointer holds (the nil address for a nil pointer); for `Write` of
a non-nil pointer to an array or to a value of another kind that is neither
text nor a pointer, that same address; for `Write` of a pointer to another
pointer, the address that inner pointer holds. -/
theorem Read_Write_pointer_address (env : Env σ) (s : Attribute) (p q : Addr)
    (e : GoValue) (bytes : List Nat) (isArray : Bool) (ptrs : List Addr)
    (dType : Datatype) (w : World σ) :
    Attribute.Read env s (some (.ptr p e)) dType w =
      (if cgoCheckPointer env p e.pointerWords = true then
        (.ok (h5err env (env.H5Aread s.id dType.id p w.mem w.lib).1),
         ⟨(env.H5Aread s.id dType.id p w.mem w.lib).2.1,
          (env.H5Aread s.id dType.id p w.mem w.lib).2.2,
          w.trace ++ [Event.H5Aread s.id dType.id p
            (env.H5Aread s.id dType.id p w.mem w.lib).1]⟩)
       else (.panic .cgoPointer, w)) ∧
    Attribute.Read env s (some .nilptr) dType w =
      (.ok (h5err env (env.H5Aread s.id dType.id 0 w.mem w.lib).1),
       ⟨(env.H5Aread s.id dType.id 0 w.mem w.lib).2.1,
        (env.H5Aread s.id dType.id 0 w.mem w.lib).2.2,
        w.trace ++ [Event.H5Aread s.id dType.id 0
          (env.H5Aread s.id dType.id 0 w.mem w.lib).1]⟩) ∧
    Attribute.Write env s (some (.ptr p (.array bytes))) dType w =
      (.ok (h5err env (env.H5Awrite s.id dType.id p w.mem w.lib).1),
       ⟨(env.H5Awrite s.id dType.id p w.mem w.lib).2.1,
        (env.H5Awrite s.id dType.id p w.mem w.lib).2.2,
        w.trace ++ [Event.H5Awrite s.id dType.id p
          (env.H5Awrite s.id dType.id p w.mem w.lib).1]⟩) ∧
    Attribute.Write env s (some (.ptr p (.other bytes))) dType w =
      Attribute.Write env s (some (.ptr p (.array bytes))) dType w ∧
    Attribute.Write env s (some (.ptr p (.withPointers isArray ptrs))) dType w =
      (if cgoCheckPointer env p ptrs = true then
        Attribute.Write env s (some (.ptr p (.array bytes))) dType w
       else (.panic .cgoPointer, w)) ∧
    Attribute.Write env s (some (.ptr p (.ptr q e))) dType w =
      (if cgoCheckPointer env q e.pointerWords = true then
        (.ok (h5err env (env.H5Awrite s.id dType.id q w.mem w.lib).1),
         ⟨(env.H5Awrite s.id dType.id q w.mem w.lib).2.1,
          (env.H5Awrite s.id dType.id q w.mem w.lib).2.2,
          w.trace ++ [Event.H5Awrite s.id dType.id q
            (env.H5Awrite s.id dType.id q w.mem w.lib).1]⟩)
       else (.panic .cgoPointer, w)) ∧
    Attribute.Write env s (some (.ptr p .nilptr)) dType w =
      (.ok (h5err env (env.H5Awrite s.id dType.id 0 w.mem w.lib).1),
       ⟨(env.H5Awrite s.id dType.id 0 w.mem w.lib).2.1,
        (env.H5Awrite s.id dType.id 0 w.mem w.lib).2.2,
        w.trace ++ [Event.H5Awrite s.id dType.id 0
          (env.H5Awrite s.id dType.id 0 w.mem w.lib).1]⟩) ∧
    (∀ (a : Addr) (ws : List Addr), cgoCheckPointer env a ws = false ↔
      (a ≠ 0 ∧ env.isGoPointer a = true ∧ ∃ x, x ∈ ws ∧ x ≠ 0 ∧ env.isGoPointer x = true)) := by
  refine ⟨?_, rfl, rfl, rfl, ?_, ?_, rfl, fun a ws => cgoCheckPointer_eq_false_iff env a ws⟩
  · cases h : cgoCheckPointer env p e.pointerWords
    · simp [Attribute.Read, Attribute.Read.switch, reflect.ValueOf, Value.Kind, Prep.ofAddr,
        Value.Pointer, Value.pointeeWords, h, runDeferred]
    · simp [Attribute.Read, Attribute.Read.switch, reflect.ValueOf, Value.Kind, Prep.ofAddr,
        Value.Pointer, Value.pointeeWords, h, runDeferred, C.H5Aread, World.call]
  · cases isArray <;> cases h : cgoCheckPointer env p ptrs <;>
      simp [Attribute.Write, Attribute.Write.switch, reflect.ValueOf, reflect.Indirect,
        Value.Kind, Value.Elem, Prep.ofAddr, Value.UnsafeAddr, Value.words,
        GoValue.pointerWords, h, runDeferred, C.H5Awrite, World.call,
        cgoCheckPointer_nil_words]
  · cases h : cgoCheckPointer env q e.pointerWords
    · simp [Attribute.Write, Attribute.Write.switch, reflect.ValueOf, reflect.Indirect,
        Value.Kind, Value.Elem, Prep.ofAddr, Value.Pointer, Value.pointeeWords, h, runDeferred]
    · simp [Attribute.Write, Attribute.Write.switch, reflect.ValueOf, reflect.Indirect,
        Value.Kind, Value.Elem, Prep.ofAddr, Value.Pointer, Value.pointeeWords, h, runDeferred,
        C.H5Awrite, World.call]

/-! ## Marshalling: text -/

/-- C7, the counterexample: a text of a defined string type
(`type Name string`) passed by reference is a text source, of kind `String`,
yet `Write` aborts in the type assertion `v.Interface().(string)`: it
allocates no scratch buffer and makes no native call. -/
theorem Write_defined_string_counterexample :
    (Attribute.Write mockEnv ⟨⟨1⟩⟩ (some (.ptr 200 (.namedString 100 hello))) ⟨⟨2⟩⟩
      textWorld).1 = .panic .typeAssertion ∧
    (reflect.Indirect (reflect.ValueOf (some (.ptr 200 (.namedString 100 hello))))).Kind =
      Kind.String ∧
    (Attribute.Write mockEnv ⟨⟨1⟩⟩ (some (.ptr 200 (.namedString 100 hello))) ⟨⟨2⟩⟩
      textWorld).2.trace = [] :=
  ⟨rfl, rfl, rfl⟩

/-- C7, as amended: let `str` be the address the allocator returns for
`len(text) + 1` bytes and `slot` the address of the variable that holds it,
the two regions not overlapping. `Write` of a text of type `string` passed
by reference makes exactly three foreign calls, in this order: the
allocation of the scratch buffer `str`; the native write, handed `slot` in a
memory `memc` where the buffer holds the bytes of the text followed by one
NUL and the slot holds the address `str`; the release of `str`. It returns
the translation of the status of the native write, whatever that status is.
`Write` of a source whose kind is not `String` makes no allocation and no
release. -/
theorem Write_text_scratch_buffer (env : Env σ) (s : Attribute) (q d : Addr)
    (text : List Nat) (data : Option GoValue) (dType : Datatype) (w : World σ)
    (str slot : Addr) (lib1 lib2 : σ)
    (hstr : env.malloc (text.length + 1) w.lib = (str, lib1))
    (hslot : env.newvar lib1 = (slot, lib2))
    (hdisj : slot + env.ptrSize ≤ str ∨ str + (text.length + 1) ≤ slot)
    (hdata : (reflect.Indirect (reflect.ValueOf data)).Kind ≠ Kind.String) :
    (∃ memc : Mem,
      memc = writeCells (writeCells w.mem str ((text ++ [0]).map Cell.byte)) slot
        (ptrCells env.ptrSize str) ∧
      readCells memc str (text.length + 1) = (text ++ [0]).map Cell.byte ∧
      readCells memc slot env.ptrSize = ptrCells env.ptrSize str ∧
      Attribute.Write env s (some (.ptr q (.string d text))) dType w =
        (.ok (h5err env (env.H5Awrite s.id dType.id slot memc lib2).1),
         ⟨(env.H5Awrite s.id dType.id slot memc lib2).2.1,
          env.free str (env.H5Awrite s.id dType.id slot memc lib2).2.2,
          w.trace ++ [Event.malloc (text.length + 1) str,
            Event.H5Awrite s.id dType.id slot (env.H5Awrite s.id dType.id slot memc lib2).1,
            Event.free str]⟩)) ∧
    ((Attribute.Write env s data dType w).2.trace = w.trace ∨
      ∃ a rc, (Attribute.Write env s data dType w).2.trace =
        w.trace ++ [Event.H5Awrite s.id dType.id a rc]) := by
  constructor
  · refine ⟨_, rfl, ?_, ?_, ?_⟩
    · rw [readCells_writeCells_disjoint _ slot str _ _
        (by rw [ptrCells_length]; exact hdisj)]
      have h := readCells_writeCells w.mem str ((text ++ [0]).map Cell.byte)
      simpa using h
    · have h := readCells_writeCells (writeCells w.mem str ((text ++ [0]).map Cell.byte)) slot
        (ptrCells env.ptrSize str)
      rwa [ptrCells_length] at h
    · simp only [Attribute.Write, Attribute.Write.switch, reflect.Indirect, reflect.ValueOf,
        Value.Kind, Value.Elem, Value.InterfaceString, runDeferred, C.free, C.H5Awrite,
        World.call, Attribute.Write.text, C.CString, cgoCheckPointer_nil_words, hstr, hslot,
        ne_eq, not_true_eq_false, ite_false, List.foldr, List.append_assoc,
        List.singleton_append, reduceCtorEq]
      rfl
  · cases data with
    | none => exact Or.inl rfl
    | some g =>
      cases g with
      | array bytes => exact Or.inl rfl
      | string data bytes => exact absurd rfl hdata
      | namedString data bytes => exact absurd rfl hdata
      | nilptr => exact Or.inl rfl
      | other bytes => exact Or.inl rfl
      | withPointers isArray ptrs => cases isArray <;> exact Or.inl rfl
      | ptr p e =>
        cases e with
        | array bytes => exact Or.inr ⟨_, _, rfl⟩
        | string data bytes => exact absurd rfl hdata
        | namedString data bytes => exact absurd rfl hdata
        | nilptr => exact Or.inr ⟨_, _, rfl⟩
        | other bytes => exact Or.inr ⟨_, _, rfl⟩
        | withPointers isArray ptrs =>
          cases isArray <;> cases h : cgoCheckPointer env p ptrs
          · left
            simp [Attribute.Write, Attribute.Write.switch, reflect.ValueOf, reflect.Indirect,
              Value.Kind, Value.Elem, Prep.ofAddr, Value.UnsafeAddr, Value.words,
              GoValue.pointerWords, h, runDeferred]
          · right
            refine ⟨p, (env.H5Awrite s.id dType.id p w.mem w.lib).1, ?_⟩
            simp [Attribute.Write, Attribute.Write.switch, reflect.ValueOf, reflect.Indirect,
              Value.Kind, Value.Elem, Prep.ofAddr, Value.UnsafeAddr, Value.words,
              GoValue.pointerWords, h, runDeferred, C.H5Awrite, World.call]
          · left
            simp [Attribute.Write, Attribute.Write.switch, reflect.ValueOf, reflect.Indirect,
              Value.Kind, Value.Elem, Prep.ofAddr, Value.UnsafeAddr, Value.words,
              GoValue.pointerWords, h, runDeferred]
          · right
            refine ⟨p, (env.H5Awrite s.id dType.id p w.mem w.lib).1, ?_⟩
            simp [Attribute.Write, Attribute.Write.switch, reflect.ValueOf, reflect.Indirect,
              Value.Kind, Value.Elem, Prep.ofAddr, Value.UnsafeAddr, Value.words,
              GoValue.pointerWords, h, runDeferred, C.H5Awrite, World.call]
        | ptr p2 e2 =>
          cases h : cgoCheckPointer env p2 e2.pointerWords
          · left
            simp [Attribute.Write, Attribute.Write.switch, reflect.ValueOf, reflect.Indirect,
              Value.Kind, Value.Elem, Prep.ofAddr, Value.Pointer, Value.pointeeWords, h,
              runDeferred]
          · right
            refine ⟨p2, (env.H5Awrite s.id dType.id p2 w.mem w.lib).1, ?_⟩
            simp [Attribute.Write, Attribute.Write.switch, reflect.ValueOf, reflect.Indirect,
              Value.Kind, Value.Elem, Prep.ofAddr, Value.Pointer, Value.pointeeWords, h,
              runDeferred, C.H5Awrite, World.call]

set_option maxRecDepth 8000 in
/-- C7 as amended, at a concrete input: the text "hello" passed by reference
over the mock layer, whose allocator returns the address 1000 for the
scratch buffer and 1006 for the slot, and a scalar passed by reference as the
source that is not text. -/
theorem Write_text_scratch_buffer_witness :
    (mockEnv.malloc (hello.length + 1) textWorld.lib =
        (1000, ⟨0, 1006, fun _ => 8, fun _ => []⟩) ∧
      mockEnv.newvar ⟨0, 1006, fun _ => 8, fun _ => []⟩ =
        (1006, ⟨0, 1014, fun _ => 8, fun _ => []⟩) ∧
      (1006 + mockEnv.ptrSize ≤ 1000 ∨ 1000 + (hello.length + 1) ≤ 1006) ∧
      (reflect.Indirect (reflect.ValueOf (some (.ptr 100 (.other [4, 3, 2, 1]))))).Kind ≠
        Kind.String) ∧
    ((∃ memc : Mem,
      memc = writeCells (writeCells textWorld.mem 1000 ((hello ++ [0]).map Cell.byte)) 1006
        (ptrCells mockEnv.ptrSize 1000) ∧
      readCells memc 1000 (hello.length + 1) = (hello ++ [0]).map Cell.byte ∧
      readCells memc 1006 mockEnv.ptrSize = ptrCells mockEnv.ptrSize 1000 ∧
      Attribute.Write mockEnv ⟨⟨1⟩⟩ (some (.ptr 200 (.string 100 hello))) ⟨⟨2⟩⟩ textWorld =
        (.ok (h5err mockEnv
          (mockEnv.H5Awrite 1 2 1006 memc ⟨0, 1014, fun _ => 8, fun _ => []⟩).1),
         ⟨(mockEnv.H5Awrite 1 2 1006 memc ⟨0, 1014, fun _ => 8, fun _ => []⟩).2.1,
          mockEnv.free 1000
            (mockEnv.H5Awrite 1 2 1006 memc ⟨0, 1014, fun _ => 8, fun _ => []⟩).2.2,
          textWorld.trace ++ [Event.malloc (hello.length + 1) 1000,
            Event.H5Awrite 1 2 1006
              (mockEnv.H5Awrite 1 2 1006 memc ⟨0, 1014, fun _ => 8, fun _ => []⟩).1,
            Event.free 1000]⟩)) ∧
    ((Attribute.Write mockEnv ⟨⟨1⟩⟩ (some (.ptr 100 (.other [4, 3, 2, 1]))) ⟨⟨2⟩⟩
        textWorld).2.trace = textWorld.trace ∨
      ∃ a rc, (Attribute.Write mockEnv ⟨⟨1⟩⟩ (some (.ptr 100 (.other [4, 3, 2, 1]))) ⟨⟨2⟩⟩
        textWorld).2.trace = textWorld.trace ++ [Event.H5Awrite 1 2 a rc])) :=
  ⟨⟨by rfl, by rfl, by decide, by decide⟩,
   Write_text_scratch_buffer mockEnv ⟨⟨1⟩⟩ 200 100 hello (some (.ptr 100 (.other [4, 3, 2, 1])))
     ⟨⟨2⟩⟩ textWorld 1000 1006 ⟨0, 1006, fun _ => 8, fun _ => []⟩
     ⟨0, 1014, fun _ => 8, fun _ => []⟩ (by rfl) (by rfl) (by decide) (by decide)⟩

/-! ## Round trips over the mock native layer -/

theorem mock_Write_pointer_scalar (s : Attribute) (dType : Datatype) (a : Addr)
    (v : List Nat) (w : World Mock) :
    Attribute.Write mockEnv s (some (.ptr a (.other v))) dType w =
      (.ok none,
       ⟨w.mem,
        { w.lib with
          stored := fun x =>
            if x = s.id then readCells w.mem a (w.lib.size dType.id) else w.lib.stored x },
        w.trace ++ [Event.H5Awrite s.id dType.id a 0]⟩) := rfl

theorem mock_Read_pointer_scalar (s : Attribute) (dType : Datatype) (b : Addr)
    (buf : List Nat) (w : World Mock) :
    Attribute.Read mockEnv s (some (.ptr b (.other buf))) dType w =
      (.ok none,
       ⟨writeCells w.mem b (w.lib.stored s.id), w.lib,
        w.trace ++ [Event.H5Aread s.id dType.id b 0]⟩) := rfl

/-- C8: over the mock native layer, for every scalar value `v` stored at
address `a` and every datatype whose size is the size of `v`: `Write` of `v`
(through its address) succeeds, the following `Read` with the same datatype
into a buffer at address `b` (through its address) succeeds, and the buffer
then holds the bytes of `v`. This holds for every attribute, and creating an
attribute over the mock layer does return one. -/
theorem Write_Read_scalar_roundtrip (s : Attribute) (dType : Datatype) (a b : Addr)
    (v buf : List Nat) (w : World Mock) (P_DEFAULT : PropList) (id : hid_t)
    (name : List Nat) (dSpace : Dataspace) (acpl : PropList)
    (hsize : w.lib.size dType.id = v.length)
    (hmem : readCells w.mem a v.length = v.map Cell.byte) :
    (createAttribute mockEnv P_DEFAULT id name dType dSpace acpl w).1 =
      (some ⟨⟨(w.lib.next + 1 : Nat)⟩⟩, none) ∧
    (Attribute.Write mockEnv s (some (.ptr a (.other v))) dType w).1 = .ok none ∧
    (Attribute.Read mockEnv s (some (.ptr b (.other buf))) dType
      (Attribute.Write mockEnv s (some (.ptr a (.other v))) dType w).2).1 = .ok none ∧
    readCells (Attribute.Read mockEnv s (some (.ptr b (.other buf))) dType
      (Attribute.Write mockEnv s (some (.ptr a (.other v))) dType w).2).2.mem b v.length =
      v.map Cell.byte := by
  refine ⟨?_, ?_, ?_, ?_⟩
  · rw [createAttribute_eq]
    have h : ¬ ((w.lib.next + 1 : Nat) : Int) ≤ 0 := by omega
    simp only [C.H5Acreate2, World.call, mockEnv, C.CString]
    rw [if_neg h]
  · rw [mock_Write_pointer_scalar]
  · rw [mock_Write_pointer_scalar, mock_Read_pointer_scalar]
  · rw [mock_Write_pointer_scalar, mock_Read_pointer_scalar]
    simp only [if_true, hsize, hmem]
    have h := readCells_writeCells w.mem b (v.map Cell.byte)
    simpa using h

/-- C8, at a concrete input: the 4-byte scalar `[4, 3, 2, 1]` at address 100,
read back into a zeroed buffer at address 300. -/
theorem Write_Read_scalar_roundtrip_witness :
    (scalarWorld.lib.size 2 = [4, 3, 2, 1].length ∧
      readCells scalarWorld.mem 100 [4, 3, 2, 1].length = [4, 3, 2, 1].map Cell.byte) ∧
    ((createAttribute mockEnv ⟨⟨0⟩⟩ 5 hello ⟨⟨2⟩⟩ ⟨⟨3⟩⟩ ⟨⟨0⟩⟩ scalarWorld).1 =
      (some ⟨⟨(scalarWorld.lib.next + 1 : Nat)⟩⟩, none) ∧
    (Attribute.Write mockEnv ⟨⟨1⟩⟩ (some (.ptr 100 (.other [4, 3, 2, 1]))) ⟨⟨2⟩⟩
      scalarWorld).1 = .ok none ∧
    (Attribute.Read mockEnv ⟨⟨1⟩⟩ (some (.ptr 300 (.other [0, 0, 0, 0]))) ⟨⟨2⟩⟩
      (Attribute.Write mockEnv ⟨⟨1⟩⟩ (some (.ptr 100 (.other [4, 3, 2, 1]))) ⟨⟨2⟩⟩
        scalarWorld).2).1 = .ok none ∧
    readCells (Attribute.Read mockEnv ⟨⟨1⟩⟩ (some (.ptr 300 (.other [0, 0, 0, 0]))) ⟨⟨2⟩⟩
      (Attribute.Write mockEnv ⟨⟨1⟩⟩ (some (.ptr 100 (.other [4, 3, 2, 1]))) ⟨⟨2⟩⟩
        scalarWorld).2).2.mem 300 [4, 3, 2, 1].length = [4, 3, 2, 1].map Cell.byte) :=
  ⟨⟨by decide, by decide⟩,
   Write_Read_scalar_roundtrip ⟨⟨1⟩⟩ ⟨⟨2⟩⟩ 100 300 [4, 3, 2, 1] [0, 0, 0, 0] scalarWorld
     ⟨⟨0⟩⟩ 5 hello ⟨⟨3⟩⟩ ⟨⟨0⟩⟩ (by decide) (by decide)⟩

theorem mock_Write_text (s : Attribute) (dType : Datatype) (q d : Addr) (text : List Nat)
    (w : World Mock) :
    (Attribute.Write mockEnv s (some (.ptr q (.string d text))) dType w).1 = .ok none ∧
    (Attribute.Write mockEnv s (some (.ptr q (.string d text))) dType w).2.lib.stored s.id =
      readCells
        (writeCells (writeCells w.mem w.lib.brk ((text ++ [0]).map Cell.byte))
          (w.lib.brk + (text.length + 1)) (ptrCells 8 w.lib.brk))
        (w.lib.brk + (text.length + 1)) (w.lib.size dType.id) ∧
    (Attribute.Write mockEnv s (some (.ptr q (.string d text))) dType w).2.trace =
      w.trace ++ [Event.malloc (text.length + 1) w.lib.brk,
        Event.H5Awrite s.id dType.id (w.lib.brk + (text.length + 1)) 0,
        Event.free w.lib.brk] := by
  refine ⟨rfl, ?_, ?_⟩
  · simp only [Attribute.Write, Attribute.Write.switch, reflect.Indirect, reflect.ValueOf,
      Value.Kind, Value.Elem, Value.InterfaceString, runDeferred, C.free, C.H5Awrite,
      World.call, Attribute.Write.text, C.CString, mockEnv, cgoCheckPointer_nil_words,
      ne_eq, not_true_eq_false, ite_false, List.foldr, if_true]
  · simp only [Attribute.Write, Attribute.Write.switch, reflect.Indirect, reflect.ValueOf,
      Value.Kind, Value.Elem, Value.InterfaceString, runDeferred, C.free, C.H5Awrite,
      World.call, Attribute.Write.text, C.CString, mockEnv, cgoCheckPointer_nil_words,
      ne_eq, not_true_eq_false, ite_false, List.foldr, List.append_assoc,
      List.singleton_append]
    rfl

/-- C9, the counterexample: over the mock layer `Write` of the text "hello"
succeeds (handed over directly or by reference, with the same effect), but
what the mock stores is the eight bytes of the address 1000 of the scratch
copy, which `Write` has released, and not the bytes of "hello". The
following `Read` into a text buffer handed over directly, the only way to
reach the text case of `Read`, aborts. The following `Read` into a text
buffer passed by reference, the buffer lying in Go memory, aborts in the
pointer check of cgo. Neither makes a native call, and the character storage
of the buffer, at address 300, stays different from the bytes of "hello". -/
theorem text_roundtrip_counterexample :
    (Attribute.Write mockEnv ⟨⟨1⟩⟩ (some (.ptr 200 (.string 100 hello))) ⟨⟨2⟩⟩ textWorld).1 =
      .ok none ∧
    Attribute.Write mockEnv ⟨⟨1⟩⟩ (some (.string 100 hello)) ⟨⟨2⟩⟩ textWorld =
      Attribute.Write mockEnv ⟨⟨1⟩⟩ (some (.ptr 200 (.string 100 hello))) ⟨⟨2⟩⟩ textWorld ∧
    (Attribute.Write mockEnv ⟨⟨1⟩⟩ (some (.ptr 200 (.string 100 hello))) ⟨⟨2⟩⟩
      textWorld).2.lib.stored 1 = [232, 3, 0, 0, 0, 0, 0, 0].map Cell.byte ∧
    (Attribute.Write mockEnv ⟨⟨1⟩⟩ (some (.ptr 200 (.string 100 hello))) ⟨⟨2⟩⟩
      textWorld).2.lib.stored 1 ≠ hello.map Cell.byte ∧
    (Attribute.Write mockEnv ⟨⟨1⟩⟩ (some (.ptr 200 (.string 100 hello))) ⟨⟨2⟩⟩
      textWorld).2.trace =
      [Event.malloc 6 1000, Event.H5Awrite 1 2 1006 0, Event.free 1000] ∧
    (Attribute.Read mockEnv ⟨⟨1⟩⟩ (some (.string 300 [0, 0, 0, 0, 0])) ⟨⟨2⟩⟩
      (Attribute.Write mockEnv ⟨⟨1⟩⟩ (some (.ptr 200 (.string 100 hello))) ⟨⟨2⟩⟩
        textWorld).2).1 = .panic .unaddressable ∧
    (Attribute.Read mockEnv ⟨⟨1⟩⟩ (some (.ptr 400 (.string 300 [0, 0, 0, 0, 0]))) ⟨⟨2⟩⟩
      (Attribute.Write mockEnv ⟨⟨1⟩⟩ (some (.ptr 200 (.string 100 hello))) ⟨⟨2⟩⟩
        textWorld).2).1 = .panic .cgoPointer ∧
    (Attribute.Read mockEnv ⟨⟨1⟩⟩ (some (.ptr 400 (.string 300 [0, 0, 0, 0, 0]))) ⟨⟨2⟩⟩
      (Attribute.Write mockEnv ⟨⟨1⟩⟩ (some (.ptr 200 (.string 100 hello))) ⟨⟨2⟩⟩
        textWorld).2).2.trace =
      [Event.malloc 6 1000, Event.H5Awrite 1 2 1006 0, Event.free 1000] ∧
    readCells (Attribute.Read mockEnv ⟨⟨1⟩⟩ (some (.ptr 400 (.string 300 [0, 0, 0, 0, 0])))
      ⟨⟨2⟩⟩ (Attribute.Write mockEnv ⟨⟨1⟩⟩ (some (.ptr 200 (.string 100 hello))) ⟨⟨2⟩⟩
        textWorld).2).2.mem 300 5 ≠ hello.map Cell.byte := by
  refine ⟨rfl, rfl, ?_, ?_, rfl, rfl, rfl, rfl, ?_⟩
  · decide
  · decide
  · decide

/-- C9, as amended: over the mock native layer, for every text of type
`string` passed by reference and every datatype of the size of a pointer,
`Write` succeeds and what the mock stores is the representation of the
address of the scratch copy (the content of the slot whose address the text
case of `Write` hands over), whatever the bytes of the text; the following
`Read` with the same datatype through a pointer to a buffer that holds no
pointer succeeds and leaves that representation in the buffer. -/
theorem Write_text_stores_pointer (s : Attribute) (dType : Datatype) (q d b : Addr)
    (text buf : List Nat) (w : World Mock)
    (hsize : w.lib.size dType.id = mockEnv.ptrSize) :
    (Attribute.Write mockEnv s (some (.ptr q (.string d text))) dType w).1 = .ok none ∧
    (Attribute.Write mockEnv s (some (.ptr q (.string d text))) dType w).2.lib.stored s.id =
      ptrCells mockEnv.ptrSize (mockEnv.malloc (text.length + 1) w.lib).1 ∧
    (Attribute.Write mockEnv s (some (.ptr q (.string d text))) dType w).2.trace =
      w.trace ++ [Event.malloc (text.length + 1) (mockEnv.malloc (text.length + 1) w.lib).1,
        Event.H5Awrite s.id dType.id
          (mockEnv.newvar (mockEnv.malloc (text.length + 1) w.lib).2).1 0,
        Event.free (mockEnv.malloc (text.length + 1) w.lib).1] ∧
    (Attribute.Read mockEnv s (some (.ptr b (.other buf))) dType
      (Attribute.Write mockEnv s (some (.ptr q (.string d text))) dType w).2).1 = .ok none ∧
    readCells (Attribute.Read mockEnv s (some (.ptr b (.other buf))) dType
      (Attribute.Write mockEnv s (some (.ptr q (.string d text))) dType w).2).2.mem b
        mockEnv.ptrSize = ptrCells mockEnv.ptrSize (mockEnv.malloc (text.length + 1) w.lib).1 := by
  obtain ⟨h1, h2, h3⟩ := mock_Write_text s dType q d text w
  have hs : w.lib.size dType.id = 8 := hsize
  have hp : mockEnv.ptrSize = 8 := rfl
  have hm : (mockEnv.malloc (text.length + 1) w.lib).1 = w.lib.brk := rfl
  have hstored : (Attribute.Write mockEnv s (some (.ptr q (.string d text))) dType
      w).2.lib.stored s.id = ptrCells 8 w.lib.brk := by
    rw [h2, hs]
    have h := readCells_writeCells (writeCells w.mem w.lib.brk ((text ++ [0]).map Cell.byte))
      (w.lib.brk + (text.length + 1)) (ptrCells 8 w.lib.brk)
    rwa [ptrCells_length] at h
  rw [hp, hm]
  refine ⟨h1, hstored, h3, ?_, ?_⟩
  · rw [mock_Read_pointer_scalar]
  · rw [mock_Read_pointer_scalar]
    simp only [hstored]
    have h := readCells_writeCells
      (Attribute.Write mockEnv s (some (.ptr q (.string d text))) dType w).2.mem b
      (ptrCells 8 w.lib.brk)
    rwa [ptrCells_length] at h

/-- C9 as amended, at a concrete input: the text "hello" passed by reference,
read back through the pointer to an 8-byte buffer at address 300. -/
theorem Write_text_stores_pointer_witness :
    textWorld.lib.size 2 = mockEnv.ptrSize ∧
    ((Attribute.Write mockEnv ⟨⟨1⟩⟩ (some (.ptr 200 (.string 100 hello))) ⟨⟨2⟩⟩ textWorld).1 =
      .ok none ∧
    (Attribute.Write mockEnv ⟨⟨1⟩⟩ (some (.ptr 200 (.string 100 hello))) ⟨⟨2⟩⟩
      textWorld).2.lib.stored 1 =
      ptrCells mockEnv.ptrSize (mockEnv.malloc (hello.length + 1) textWorld.lib).1 ∧
    (Attribute.Write mockEnv ⟨⟨1⟩⟩ (some (.ptr 200 (.string 100 hello))) ⟨⟨2⟩⟩
      textWorld).2.trace =
      textWorld.trace ++ [Event.malloc (hello.length + 1)
          (mockEnv.malloc (hello.length + 1) textWorld.lib).1,
        Event.H5Awrite 1 2
          (mockEnv.newvar (mockEnv.malloc (hello.length + 1) textWorld.lib).2).1 0,
        Event.free (mockEnv.malloc (hello.length + 1) textWorld.lib).1] ∧
    (Attribute.Read mockEnv ⟨⟨1⟩⟩ (some (.ptr 300 (.other [0, 0, 0, 0, 0, 0, 0, 0]))) ⟨⟨2⟩⟩
      (Attribute.Write mockEnv ⟨⟨1⟩⟩ (some (.ptr 200 (.string 100 hello))) ⟨⟨2⟩⟩
        textWorld).2).1 = .ok none ∧
    readCells (Attribute.Read mockEnv ⟨⟨1⟩⟩ (some (.ptr 300 (.other [0, 0, 0, 0, 0, 0, 0, 0])))
      ⟨⟨2⟩⟩ (Attribute.Write mockEnv ⟨⟨1⟩⟩ (some (.ptr 200 (.string 100 hello))) ⟨⟨2⟩⟩
        textWorld).2).2.mem 300 mockEnv.ptrSize =
      ptrCells mockEnv.ptrSize (mockEnv.malloc (hello.length + 1) textWorld.lib).1) :=
  ⟨by decide,
   Write_text_stores_pointer ⟨⟨1⟩⟩ ⟨⟨2⟩⟩ 200 100 300 hello [0, 0, 0, 0, 0, 0, 0, 0]
     textWorld (by decide)⟩

end Hdf5
